import Mathlib

/-!
Shallow embedding of the Solar simulation engine
(`solar/structures.py` and `solar/state.py`).

Python floats are modelled as exact rationals (`ℚ`); the mutable
`GameState` object becomes a record, with each mutating operation
returning `Option` of the updated state (`none` = the Python call
raises and the caller's state is unchanged).
-/

namespace Solar

/-- `Structure` dataclass from `solar/structures.py`: immutable description
of a placeable structure. -/
structure Structure where
  name : String
  base_production : ℚ
  upkeep : ℚ
  storage_capacity : ℚ
  adjacency_bonus : ℚ
deriving DecidableEq

/-- `Structure.production(sunlight, neighbors)`: raw energy produced this
turn, `max(0, (base_production + adjacency_bonus * neighbors) * sunlight)`. -/
def Structure.production (s : Structure) (sunlight : ℚ) (neighbors : ℤ) : ℚ :=
  max 0 ((s.base_production + s.adjacency_bonus * (neighbors : ℚ)) * sunlight)

/-- `SOLAR_PANEL` catalog constant. -/
def SOLAR_PANEL : Structure :=
  { name := "Solar Panel", base_production := 4, upkeep := 1/4,
    storage_capacity := 0, adjacency_bonus := 2/5 }

/-- `BATTERY_BANK` catalog constant. -/
def BATTERY_BANK : Structure :=
  { name := "Battery Bank", base_production := 0, upkeep := 1/20,
    storage_capacity := 12, adjacency_bonus := 0 }

/-- `HABITAT_DOME` catalog constant. -/
def HABITAT_DOME : Structure :=
  { name := "Habitat Dome", base_production := 0, upkeep := 8/5,
    storage_capacity := 0, adjacency_bonus := 0 }

/-- `EnergyReport` dataclass: summary of a single turn. -/
structure EnergyReport where
  production : ℚ
  consumption : ℚ
  stored : ℚ
  discharged : ℚ
  unmet_demand : ℚ
  overflow : ℚ
deriving DecidableEq

/-- `EnergyReport.net` property: net energy change before storage. -/
def EnergyReport.net (r : EnergyReport) : ℚ :=
  r.production - r.consumption

/-- `GameState`: mutable state container tracking structures and the
energy balance.  `tiles` is the flat row-major list `_tiles`. -/
structure GameState where
  width : ℕ
  height : ℕ
  tiles : List (Option Structure)
  energy_storage : ℚ
  max_storage : ℚ
  unmet_demand : ℚ
deriving DecidableEq

/-- `GameState.__init__(width, height)`: fails (raises `ValueError`) iff a
dimension is non-positive, else builds an empty board with zeroed
storage and deficit counters. -/
def GameState.init (width height : ℤ) : Option GameState :=
  if width ≤ 0 ∨ height ≤ 0 then none
  else some
    { width := width.toNat, height := height.toNat,
      tiles := List.replicate (width.toNat * height.toNat) none,
      energy_storage := 0, max_storage := 0, unmet_demand := 0 }

/-- In-bounds test of `GameState._index`: `0 <= x < width and 0 <= y < height`. -/
def GameState.inBounds (st : GameState) (x y : ℤ) : Prop :=
  0 ≤ x ∧ x < (st.width : ℤ) ∧ 0 ≤ y ∧ y < (st.height : ℤ)

instance (st : GameState) (x y : ℤ) : Decidable (st.inBounds x y) :=
  inferInstanceAs (Decidable (_ ∧ _ ∧ _ ∧ _))

/-- The flat index `y * width + x` computed by `GameState._index`. -/
def GameState.flatIdx (st : GameState) (x y : ℤ) : ℕ :=
  y.toNat * st.width + x.toNat

/-- `GameState._index(x, y)`: validates the coordinate (raising
`PlacementError`, i.e. `none`, when out of range) and returns the flat
index. -/
def GameState.index (st : GameState) (x y : ℤ) : Option ℕ :=
  if st.inBounds x y then some (st.flatIdx x y) else none

/-- `GameState._neighbors(index)`: flat indices of the up-to-4 orthogonal
neighbors of `index`, guarded exactly as in the source. -/
def GameState.neighbors (st : GameState) (idx : ℕ) : List ℕ :=
  (if 0 < idx % st.width then [idx - 1] else []) ++
  (if idx % st.width < st.width - 1 then [idx + 1] else []) ++
  (if 0 < idx / st.width then [idx - st.width] else []) ++
  (if idx / st.width < st.height - 1 then [idx + st.width] else [])

/-- `GameState._adjacent_same_type(index)`: number of orthogonal neighbors
holding a structure with the same `name`; 0 for an empty cell. -/
def GameState.adjacent_same_type (st : GameState) (idx : ℕ) : ℕ :=
  match st.tiles.getD idx none with
  | none => 0
  | some s =>
      ((st.neighbors idx).filter fun nb =>
        match st.tiles.getD nb none with
        | none => false
        | some t => t.name == s.name).length

/-- `GameState.place_structure(x, y, structure)`: `none` iff the coordinate
is out of range or the cell is occupied; otherwise stores the reference
and (when the capacity is non-zero, Python truthiness) bumps
`max_storage`. -/
def GameState.place_structure (st : GameState) (x y : ℤ) (s : Structure) :
    Option GameState :=
  match st.index x y with
  | none => none
  | some idx =>
      match st.tiles.getD idx none with
      | some _ => none
      | none =>
          some { st with
            tiles := st.tiles.set idx (some s)
            max_storage :=
              if s.storage_capacity = 0 then st.max_storage
              else st.max_storage + s.storage_capacity }

/-- `GameState.remove_structure(x, y)`: `none` iff the coordinate is out of
range or the cell is empty; otherwise clears the cell and (when the
capacity is non-zero) floors `max_storage` at 0 and clamps
`energy_storage` down to the new ceiling. -/
def GameState.remove_structure (st : GameState) (x y : ℤ) :
    Option GameState :=
  match st.index x y with
  | none => none
  | some idx =>
      match st.tiles.getD idx none with
      | none => none
      | some s =>
          some { st with
            tiles := st.tiles.set idx none
            max_storage :=
              if s.storage_capacity = 0 then st.max_storage
              else max 0 (st.max_storage - s.storage_capacity)
            energy_storage :=
              if s.storage_capacity = 0 then st.energy_storage
              else min st.energy_storage
                (max 0 (st.max_storage - s.storage_capacity)) }

/-- `GameState.structures()`: immutable snapshot of the grid contents. -/
def GameState.structures (st : GameState) : List (Option Structure) :=
  st.tiles

/-- Per-cell production term of the `advance_turn` accumulation loop. -/
def GameState.prodAt (st : GameState) (sunlight : ℚ) (idx : ℕ) : ℚ :=
  match st.tiles.getD idx none with
  | none => 0
  | some s => s.production sunlight (st.adjacent_same_type idx : ℤ)

/-- Per-cell upkeep term of the `advance_turn` accumulation loop. -/
def GameState.upkeepAt (st : GameState) (idx : ℕ) : ℚ :=
  match st.tiles.getD idx none with
  | none => 0
  | some s => s.upkeep

/-- Per-cell storage-capacity term of the `advance_turn` accumulation loop
(the source guards the addition with Python truthiness of the capacity). -/
def GameState.capAt (st : GameState) (idx : ℕ) : ℚ :=
  match st.tiles.getD idx none with
  | none => 0
  | some s => if s.storage_capacity = 0 then 0 else s.storage_capacity

/-- Total production accumulated by the `advance_turn` loop. -/
def GameState.productionTotal (st : GameState) (sunlight : ℚ) : ℚ :=
  ∑ idx ∈ Finset.range st.tiles.length, st.prodAt sunlight idx

/-- Total upkeep accumulated by the `advance_turn` loop. -/
def GameState.upkeepTotal (st : GameState) : ℚ :=
  ∑ idx ∈ Finset.range st.tiles.length, st.upkeepAt idx

/-- Total storage capacity accumulated by the `advance_turn` loop. -/
def GameState.capacityTotal (st : GameState) : ℚ :=
  ∑ idx ∈ Finset.range st.tiles.length, st.capAt idx

/-- Steps 2-6 and 8 of `advance_turn` (everything after input validation
and before the degenerate-storage guard): recompute `max_storage`, clamp
`energy_storage`, then charge or discharge and build the report. -/
def GameState.advanceCore (st : GameState) (sunlight demand : ℚ) :
    GameState × EnergyReport :=
  let production := st.productionTotal sunlight
  let upkeep := st.upkeepTotal
  let max1 := st.capacityTotal
  let energy1 := min st.energy_storage max1
  let net := production - upkeep - demand
  if 0 ≤ net then
    let stored := min net (max1 - energy1)
    ({ st with
        max_storage := max1
        energy_storage := energy1 + stored },
     { production := production
       consumption := upkeep + demand
       stored := stored
       discharged := 0
       unmet_demand := 0
       overflow := net - stored })
  else
    let requirement := -net
    let discharged := min energy1 requirement
    ({ st with
        max_storage := max1
        energy_storage := energy1 - discharged
        unmet_demand := st.unmet_demand + (requirement - discharged) },
     { production := production
       consumption := upkeep + demand
       stored := 0
       discharged := discharged
       unmet_demand := requirement - discharged
       overflow := 0 })

/-- Step 7 of `advance_turn`, the degenerate-storage guard: force
`energy_storage = 0` when `max_storage == 0` but `energy_storage != 0`. -/
def GameState.applyGuard (st : GameState) : GameState :=
  if st.max_storage = 0 ∧ st.energy_storage ≠ 0 then
    { st with energy_storage := 0 }
  else st

/-- `GameState.advance_turn(sunlight, demand)`: `none` (a raised
`ValueError`) iff an input is negative; otherwise the core turn
resolution followed by the degenerate-storage guard. -/
def GameState.advance_turn (st : GameState) (sunlight demand : ℚ) :
    Option (GameState × EnergyReport) :=
  if sunlight < 0 then none
  else if demand < 0 then none
  else
    let p := st.advanceCore sunlight demand
    some (p.1.applyGuard, p.2)

/-- `GameState.with_defaults()`: 3x3 grid with two battery banks. -/
def GameState.with_defaults : Option GameState :=
  (GameState.init 3 3).bind fun st =>
    (st.place_structure 1 0 BATTERY_BANK).bind fun st1 =>
      st1.place_structure 0 1 BATTERY_BANK

/-- Storage capacity of one optional cell content. -/
def capOf : Option Structure → ℚ
  | none => 0
  | some s => s.storage_capacity

/-- Sum of `storage_capacity` over all currently placed structures. -/
def GameState.capacitySum (st : GameState) : ℚ :=
  (st.tiles.map capOf).sum

/-- The `0 ≤ energy_storage ≤ max_storage` state invariant. -/
def GameState.storageInv (st : GameState) : Prop :=
  0 ≤ st.energy_storage ∧ st.energy_storage ≤ st.max_storage

instance (st : GameState) : Decidable st.storageInv :=
  inferInstanceAs (Decidable (_ ∧ _))

/-- Non-negative storage capacity for one optional cell content. -/
def capNonneg : Option Structure → Prop
  | none => True
  | some s => 0 ≤ s.storage_capacity

instance capNonneg.dec : (os : Option Structure) → Decidable (capNonneg os)
  | none => isTrue trivial
  | some s => inferInstanceAs (Decidable (0 ≤ s.storage_capacity))

/-- Every structure placed on the board has non-negative storage capacity. -/
def GameState.capsNonneg (st : GameState) : Prop :=
  ∀ os ∈ st.tiles, capNonneg os

instance (st : GameState) : Decidable st.capsNonneg :=
  List.decidableBAll _ st.tiles

/-- Concrete 2-by-1 board holding two adjacent solar panels (the first
scenario of the repository's tests). -/
def exSt : GameState :=
  { width := 2, height := 1, tiles := [some SOLAR_PANEL, some SOLAR_PANEL],
    energy_storage := 0, max_storage := 0, unmet_demand := 0 }

/-- State of `exSt` after one `advance_turn(1, 0)`. -/
def exStAfter : GameState :=
  { width := 2, height := 1, tiles := [some SOLAR_PANEL, some SOLAR_PANEL],
    energy_storage := 0, max_storage := 0, unmet_demand := 0 }

/-- Report returned by `advance_turn(1, 0)` on `exSt`. -/
def exRep : EnergyReport :=
  { production := 44/5, consumption := 1/2, stored := 0, discharged := 0,
    unmet_demand := 0, overflow := 83/10 }

/-- Concrete empty 1-by-1 board. -/
def est0 : GameState :=
  { width := 1, height := 1, tiles := [none],
    energy_storage := 0, max_storage := 0, unmet_demand := 0 }

/-- State of `est0` after placing a solar panel at the origin. -/
def est1 : GameState :=
  { width := 1, height := 1, tiles := [some SOLAR_PANEL],
    energy_storage := 0, max_storage := 0, unmet_demand := 0 }

/-! ### Basic lemmas about the embedding -/

lemma getD_lt_length {l : List (Option Structure)} {i : ℕ} {s : Structure}
    (h : l.getD i none = some s) : i < l.length := by
  by_contra hle
  rw [List.getD_eq_default _ _ (le_of_not_lt hle)] at h
  exact Option.noConfusion h

lemma getD_some_mem {l : List (Option Structure)} {i : ℕ} {s : Structure}
    (h : l.getD i none = some s) : some s ∈ l := by
  have hlt := getD_lt_length h
  rw [List.getD_eq_getElem?_getD, List.getElem?_eq_getElem hlt] at h
  simpa using h ▸ List.getElem_mem hlt

lemma getD_set_self {l : List (Option Structure)} {i : ℕ} (v : Option Structure)
    (h : i < l.length) : (l.set i v).getD i none = v := by
  rw [List.getD_eq_getElem?_getD, List.getElem?_set_self h]
  rfl

lemma applyGuard_of_imp {st : GameState}
    (h : st.max_storage = 0 → st.energy_storage = 0) : st.applyGuard = st := by
  rw [GameState.applyGuard, if_neg]
  rintro ⟨h0, hne⟩
  exact hne (h h0)

lemma applyGuard_width (st : GameState) : st.applyGuard.width = st.width := by
  rw [GameState.applyGuard]; split <;> rfl

lemma applyGuard_height (st : GameState) : st.applyGuard.height = st.height := by
  rw [GameState.applyGuard]; split <;> rfl

lemma applyGuard_tiles (st : GameState) : st.applyGuard.tiles = st.tiles := by
  rw [GameState.applyGuard]; split <;> rfl

lemma applyGuard_max (st : GameState) :
    st.applyGuard.max_storage = st.max_storage := by
  rw [GameState.applyGuard]; split <;> rfl

lemma applyGuard_unmet (st : GameState) :
    st.applyGuard.unmet_demand = st.unmet_demand := by
  rw [GameState.applyGuard]; split <;> rfl

/-- The charge branch of the turn resolution, as one equation. -/
lemma advanceCore_pos (st : GameState) (sunlight demand : ℚ)
    (h : 0 ≤ st.productionTotal sunlight - st.upkeepTotal - demand) :
    st.advanceCore sunlight demand =
      ({ st with
          max_storage := st.capacityTotal
          energy_storage := min st.energy_storage st.capacityTotal +
            min (st.productionTotal sunlight - st.upkeepTotal - demand)
              (st.capacityTotal - min st.energy_storage st.capacityTotal) },
       { production := st.productionTotal sunlight
         consumption := st.upkeepTotal + demand
         stored := min (st.productionTotal sunlight - st.upkeepTotal - demand)
           (st.capacityTotal - min st.energy_storage st.capacityTotal)
         discharged := 0
         unmet_demand := 0
         overflow := st.productionTotal sunlight - st.upkeepTotal - demand -
           min (st.productionTotal sunlight - st.upkeepTotal - demand)
             (st.capacityTotal - min st.energy_storage st.capacityTotal) }) := by
  rw [GameState.advanceCore]
  simp only []
  rw [if_pos h]

/-- The discharge branch of the turn resolution, as one equation. -/
lemma advanceCore_neg (st : GameState) (sunlight demand : ℚ)
    (h : ¬ 0 ≤ st.productionTotal sunlight - st.upkeepTotal - demand) :
    st.advanceCore sunlight demand =
      ({ st with
          max_storage := st.capacityTotal
          energy_storage := min st.energy_storage st.capacityTotal -
            min (min st.energy_storage st.capacityTotal)
              (-(st.productionTotal sunlight - st.upkeepTotal - demand))
          unmet_demand := st.unmet_demand +
            (-(st.productionTotal sunlight - st.upkeepTotal - demand) -
              min (min st.energy_storage st.capacityTotal)
                (-(st.productionTotal sunlight - st.upkeepTotal - demand))) },
       { production := st.productionTotal sunlight
         consumption := st.upkeepTotal + demand
         stored := 0
         discharged := min (min st.energy_storage st.capacityTotal)
           (-(st.productionTotal sunlight - st.upkeepTotal - demand))
         unmet_demand := -(st.productionTotal sunlight - st.upkeepTotal - demand) -
           min (min st.energy_storage st.capacityTotal)
             (-(st.productionTotal sunlight - st.upkeepTotal - demand))
         overflow := 0 }) := by
  rw [GameState.advanceCore]
  simp only []
  rw [if_neg h]

lemma advance_turn_eq (st : GameState) {sunlight demand : ℚ}
    (hs : 0 ≤ sunlight) (hd : 0 ≤ demand) :
    st.advance_turn sunlight demand =
      some ((st.advanceCore sunlight demand).1.applyGuard,
            (st.advanceCore sunlight demand).2) := by
  rw [GameState.advance_turn, if_neg (not_lt.mpr hs), if_neg (not_lt.mpr hd)]

/-- Whatever branch is taken, if the recomputed capacity is zero and the
incoming storage was non-negative, the storage after charge/discharge is
exactly zero. -/
lemma advanceCore_energy_of_max_zero (st : GameState) (sunlight demand : ℚ)
    (he : 0 ≤ st.energy_storage)
    (hM : (st.advanceCore sunlight demand).1.max_storage = 0) :
    (st.advanceCore sunlight demand).1.energy_storage = 0 := by
  by_cases h : 0 ≤ st.productionTotal sunlight - st.upkeepTotal - demand
  · rw [advanceCore_pos st sunlight demand h] at hM ⊢
    simp only at hM ⊢
    rw [hM, min_eq_right he, sub_zero, min_comm, min_eq_left h, add_zero]
  · rw [advanceCore_neg st sunlight demand h] at hM ⊢
    simp only at hM ⊢
    rw [hM, min_eq_right he]
    have : min (0:ℚ) (-(st.productionTotal sunlight - st.upkeepTotal - demand)) = 0 :=
      min_eq_left (by linarith [not_le.mp h])
    rw [this, sub_zero]

lemma advanceCore_width (st : GameState) (sunlight demand : ℚ) :
    (st.advanceCore sunlight demand).1.width = st.width := by
  rw [GameState.advanceCore]
  simp only []
  split <;> rfl

lemma advanceCore_height (st : GameState) (sunlight demand : ℚ) :
    (st.advanceCore sunlight demand).1.height = st.height := by
  rw [GameState.advanceCore]
  simp only []
  split <;> rfl

lemma advanceCore_tiles (st : GameState) (sunlight demand : ℚ) :
    (st.advanceCore sunlight demand).1.tiles = st.tiles := by
  rw [GameState.advanceCore]
  simp only []
  split <;> rfl

lemma advanceCore_max (st : GameState) (sunlight demand : ℚ) :
    (st.advanceCore sunlight demand).1.max_storage = st.capacityTotal := by
  rw [GameState.advanceCore]
  simp only []
  split <;> rfl

/-- Destructuring a successful `advance_turn` call. -/
lemma advance_turn_some {st : GameState} {sunlight demand : ℚ}
    {p : GameState × EnergyReport}
    (h : st.advance_turn sunlight demand = some p) :
    p = ((st.advanceCore sunlight demand).1.applyGuard,
         (st.advanceCore sunlight demand).2) ∧ 0 ≤ sunlight ∧ 0 ≤ demand := by
  rw [GameState.advance_turn] at h
  by_cases h1 : sunlight < 0
  · rw [if_pos h1] at h
    exact Option.noConfusion h
  rw [if_neg h1] at h
  by_cases h2 : demand < 0
  · rw [if_pos h2] at h
    exact Option.noConfusion h
  rw [if_neg h2] at h
  exact ⟨(Option.some.inj h).symm, not_lt.mp h1, not_lt.mp h2⟩

/-- Destructuring a successful `place_structure` call. -/
lemma place_structure_some {st : GameState} {x y : ℤ} {s : Structure}
    {st' : GameState} (h : st.place_structure x y s = some st') :
    ∃ idx, st.index x y = some idx ∧ st.tiles.getD idx none = none ∧
      st' = { st with
        tiles := st.tiles.set idx (some s)
        max_storage :=
          if s.storage_capacity = 0 then st.max_storage
          else st.max_storage + s.storage_capacity } := by
  rw [GameState.place_structure] at h
  cases hidx : st.index x y with
  | none =>
      rw [hidx] at h
      exact Option.noConfusion h
  | some idx =>
      simp only [hidx] at h
      cases hocc : st.tiles.getD idx none with
      | some t =>
          simp only [hocc] at h
          exact Option.noConfusion h
      | none =>
          simp only [hocc] at h
          exact ⟨idx, rfl, hocc, (Option.some.inj h).symm⟩

/-- Destructuring a successful `remove_structure` call. -/
lemma remove_structure_some {st : GameState} {x y : ℤ} {st' : GameState}
    (h : st.remove_structure x y = some st') :
    ∃ idx s, st.index x y = some idx ∧ st.tiles.getD idx none = some s ∧
      st' = { st with
        tiles := st.tiles.set idx none
        max_storage :=
          if s.storage_capacity = 0 then st.max_storage
          else max 0 (st.max_storage - s.storage_capacity)
        energy_storage :=
          if s.storage_capacity = 0 then st.energy_storage
          else min st.energy_storage
            (max 0 (st.max_storage - s.storage_capacity)) } := by
  rw [GameState.remove_structure] at h
  cases hidx : st.index x y with
  | none =>
      rw [hidx] at h
      exact Option.noConfusion h
  | some idx =>
      simp only [hidx] at h
      cases hocc : st.tiles.getD idx none with
      | none =>
          simp only [hocc] at h
          exact Option.noConfusion h
      | some s =>
          simp only [hocc] at h
          exact ⟨idx, s, rfl, hocc, (Option.some.inj h).symm⟩

/-- Destructuring a successful construction. -/
lemma init_some {w h : ℤ} {st : GameState} (hinit : GameState.init w h = some st) :
    st = { width := w.toNat, height := h.toNat,
           tiles := List.replicate (w.toNat * h.toNat) none,
           energy_storage := 0, max_storage := 0, unmet_demand := 0 } := by
  rw [GameState.init] at hinit
  by_cases hc : w ≤ 0 ∨ h ≤ 0
  · rw [if_pos hc] at hinit
    exact Option.noConfusion hinit
  · rw [if_neg hc] at hinit
    exact (Option.some.inj hinit).symm

lemma capAt_nonneg {st : GameState} (hc : st.capsNonneg) (idx : ℕ) :
    0 ≤ st.capAt idx := by
  rw [GameState.capAt]
  cases hocc : st.tiles.getD idx none with
  | none => exact le_refl 0
  | some s =>
      show 0 ≤ if s.storage_capacity = 0 then 0 else s.storage_capacity
      have hs : capNonneg (some s) := hc _ (getD_some_mem hocc)
      split_ifs with h0
      · exact le_refl 0
      · exact hs

lemma capacityTotal_nonneg {st : GameState} (hc : st.capsNonneg) :
    0 ≤ st.capacityTotal :=
  Finset.sum_nonneg fun i _ => capAt_nonneg hc i

lemma applyGuard_storageInv {st : GameState} (h : st.storageInv) :
    st.applyGuard.storageInv := by
  rw [GameState.applyGuard]
  split_ifs with hcond
  · exact ⟨le_refl 0, le_of_eq hcond.1.symm⟩
  · exact h

lemma advanceCore_storageInv (st : GameState) (sunlight demand : ℚ)
    (hc : st.capsNonneg) (hinv : st.storageInv) :
    (st.advanceCore sunlight demand).1.storageInv := by
  have hM : 0 ≤ st.capacityTotal := capacityTotal_nonneg hc
  have he1a : 0 ≤ min st.energy_storage st.capacityTotal := le_min hinv.1 hM
  have he1b : min st.energy_storage st.capacityTotal ≤ st.capacityTotal :=
    min_le_right _ _
  rw [GameState.storageInv, advanceCore_max]
  by_cases hnet : 0 ≤ st.productionTotal sunlight - st.upkeepTotal - demand
  · have hE : (st.advanceCore sunlight demand).1.energy_storage =
        min st.energy_storage st.capacityTotal +
          min (st.productionTotal sunlight - st.upkeepTotal - demand)
            (st.capacityTotal - min st.energy_storage st.capacityTotal) := by
      rw [advanceCore_pos st sunlight demand hnet]
    rw [hE]
    have hs1 : 0 ≤ min (st.productionTotal sunlight - st.upkeepTotal - demand)
        (st.capacityTotal - min st.energy_storage st.capacityTotal) :=
      le_min hnet (by linarith)
    have hs2 : min (st.productionTotal sunlight - st.upkeepTotal - demand)
        (st.capacityTotal - min st.energy_storage st.capacityTotal) ≤
        st.capacityTotal - min st.energy_storage st.capacityTotal :=
      min_le_right _ _
    exact ⟨by linarith, by linarith⟩
  · have hE : (st.advanceCore sunlight demand).1.energy_storage =
        min st.energy_storage st.capacityTotal -
          min (min st.energy_storage st.capacityTotal)
            (-(st.productionTotal sunlight - st.upkeepTotal - demand)) := by
      rw [advanceCore_neg st sunlight demand hnet]
    rw [hE]
    have hs1 : min (min st.energy_storage st.capacityTotal)
        (-(st.productionTotal sunlight - st.upkeepTotal - demand)) ≤
        min st.energy_storage st.capacityTotal := min_le_left _ _
    have hs2 : 0 ≤ min (min st.energy_storage st.capacityTotal)
        (-(st.productionTotal sunlight - st.upkeepTotal - demand)) :=
      le_min he1a (by linarith [not_le.mp hnet])
    exact ⟨by linarith, by linarith⟩

lemma index_lt_of_wf {st : GameState} {x y : ℤ} {idx : ℕ}
    (hidx : st.index x y = some idx)
    (hlen : st.tiles.length = st.width * st.height) :
    idx < st.tiles.length := by
  rw [GameState.index] at hidx
  by_cases hb : st.inBounds x y
  · rw [if_pos hb] at hidx
    obtain ⟨hx0, hxw, hy0, hyh⟩ := hb
    have hidx' := Option.some.inj hidx
    rw [← hidx', hlen, GameState.flatIdx]
    have hx : x.toNat < st.width := by omega
    have hy : y.toNat < st.height := by omega
    calc y.toNat * st.width + x.toNat
        < (y.toNat + 1) * st.width := by rw [Nat.add_mul, Nat.one_mul]; omega
      _ ≤ st.height * st.width := Nat.mul_le_mul_right _ (by omega)
      _ = st.width * st.height := Nat.mul_comm _ _
  · rw [if_neg hb] at hidx
    exact Option.noConfusion hidx

lemma index_same_shape {st st' : GameState} {x y : ℤ}
    (hw : st'.width = st.width) (hh : st'.height = st.height) :
    st'.index x y = st.index x y := by
  simp only [GameState.index, GameState.inBounds, GameState.flatIdx, hw, hh]

lemma sum_map_getD (l : List (Option Structure)) (f : Option Structure → ℚ) :
    (l.map f).sum = ∑ k ∈ Finset.range l.length, f (l.getD k none) := by
  induction l with
  | nil => simp
  | cons a l ih =>
      rw [List.map_cons, List.sum_cons, List.length_cons, Finset.sum_range_succ']
      simp only [List.getD_cons_succ, List.getD_cons_zero]
      rw [← ih]
      ring

lemma sum_map_set (l : List (Option Structure)) (f : Option Structure → ℚ)
    (i : ℕ) (v : Option Structure) (h : i < l.length) :
    ((l.set i v).map f).sum = (l.map f).sum - f (l.getD i none) + f v := by
  induction l generalizing i with
  | nil => simp at h
  | cons a l ih =>
      cases i with
      | zero =>
          rw [List.set_cons_zero, List.map_cons, List.map_cons, List.sum_cons,
            List.sum_cons, List.getD_cons_zero]
          ring
      | succ n =>
          rw [List.set_cons_succ, List.map_cons, List.map_cons, List.sum_cons,
            List.sum_cons, List.getD_cons_succ,
            ih n (Nat.lt_of_succ_lt_succ h)]
          ring

lemma capOf_nonneg {os : Option Structure} (h : capNonneg os) : 0 ≤ capOf os := by
  cases os with
  | none => exact le_refl 0
  | some s => exact h

lemma capAt_eq_capOf (st : GameState) (idx : ℕ) :
    st.capAt idx = capOf (st.tiles.getD idx none) := by
  rw [GameState.capAt]
  cases st.tiles.getD idx none with
  | none => rfl
  | some s =>
      show (if s.storage_capacity = 0 then 0 else s.storage_capacity) =
        s.storage_capacity
      split_ifs with h0
      · rw [h0]
      · rfl

lemma capacityTotal_eq_capacitySum (st : GameState) :
    st.capacityTotal = st.capacitySum := by
  rw [GameState.capacitySum, sum_map_getD, GameState.capacityTotal]
  exact Finset.sum_congr rfl fun k _ => capAt_eq_capOf st k

lemma capacitySum_set_nonneg {st : GameState} (hc : st.capsNonneg) (idx : ℕ) :
    0 ≤ ((st.tiles.set idx none).map capOf).sum := by
  refine List.sum_nonneg fun q hq => ?_
  obtain ⟨os, hos, rfl⟩ := List.mem_map.mp hq
  rcases List.mem_or_eq_of_mem_set hos with hmem | rfl
  · exact capOf_nonneg (hc _ hmem)
  · exact le_refl 0

lemma mem_if_singleton {c : Prop} [Decidable c] {a b : ℕ} :
    (a ∈ if c then [b] else []) ↔ c ∧ a = b := by
  split_ifs with h <;> simp [h]

lemma count_if_singleton {c : Prop} [Decidable c] {a b : ℕ} :
    (if c then [b] else []).count a = if c ∧ b = a then 1 else 0 := by
  split_ifs with h h1 h2 <;>
    simp_all [List.count_cons, List.count_nil]

lemma mem_neighbors {st : GameState} {i k : ℕ} :
    k ∈ st.neighbors i ↔
      (0 < i % st.width ∧ k = i - 1) ∨
      (i % st.width < st.width - 1 ∧ k = i + 1) ∨
      (0 < i / st.width ∧ k = i - st.width) ∨
      (i / st.width < st.height - 1 ∧ k = i + st.width) := by
  rw [GameState.neighbors]
  simp only [List.mem_append, mem_if_singleton]
  tauto

lemma width_le_of_div_pos {i w : ℕ} (h : 0 < i / w) : w ≤ i := by
  by_contra hlt
  rw [Nat.div_eq_of_lt (lt_of_not_le hlt)] at h
  exact lt_irrefl 0 h

lemma self_not_mem_neighbors (st : GameState) (hw : 0 < st.width) (i : ℕ) :
    i ∉ st.neighbors i := by
  rw [mem_neighbors]
  have h1 := Nat.mod_le i st.width
  have h2 : 0 < i / st.width → st.width ≤ i := width_le_of_div_pos
  rintro (⟨hg, he⟩ | ⟨hg, he⟩ | ⟨hg, he⟩ | ⟨hg, he⟩) <;> omega

lemma count_neighbors_eq_one (st : GameState) (hw : 0 < st.width) {i j : ℕ}
    (hj : j ∈ st.neighbors i) : (st.neighbors i).count j = 1 := by
  have hml : i % st.width < st.width := Nat.mod_lt i hw
  have hmle : i % st.width ≤ i := Nat.mod_le i st.width
  have hdiv : 0 < i / st.width → st.width ≤ i := width_le_of_div_pos
  rw [mem_neighbors] at hj
  rw [GameState.neighbors, List.count_append, List.count_append,
    List.count_append, count_if_singleton, count_if_singleton,
    count_if_singleton, count_if_singleton]
  split_ifs <;> omega

lemma adjacent_same_type_pair (st : GameState) (hw : 0 < st.width)
    {i j : ℕ} {s : Structure}
    (hi : st.tiles.getD i none = some s) (hj : st.tiles.getD j none = some s)
    (hother : ∀ k, k ≠ i → k ≠ j → st.tiles.getD k none = none)
    (hadj : j ∈ st.neighbors i) :
    st.adjacent_same_type i = 1 := by
  rw [GameState.adjacent_same_type]
  simp only [hi]
  have hP : ∀ k ∈ st.neighbors i,
      (match st.tiles.getD k none with
        | none => false
        | some t => t.name == s.name) = (k == j) := by
    intro k hk
    by_cases hkj : k = j
    · subst hkj
      simp only [hj, beq_self_eq_true]
    · have hki : k ≠ i := fun he => (self_not_mem_neighbors st hw i) (he ▸ hk)
      rw [hother k hki hkj]
      simp [hkj]
  calc (List.filter (fun nb =>
        match st.tiles.getD nb none with
        | none => false
        | some t => t.name == s.name) (st.neighbors i)).length
      = ((st.neighbors i).filter (fun k => k == j)).length := by
        rw [List.filter_congr hP]
    _ = (st.neighbors i).countP (fun k => k == j) :=
        (List.countP_eq_length_filter _ _).symm
    _ = (st.neighbors i).count j := rfl
    _ = 1 := count_neighbors_eq_one st hw hadj

lemma sum_range_two_support {n i j : ℕ} {g : ℕ → ℚ} (hij : i ≠ j)
    (hi : i < n) (hj : j < n)
    (h0 : ∀ k, k < n → k ≠ i → k ≠ j → g k = 0) :
    ∑ k ∈ Finset.range n, g k = g i + g j := by
  rw [← Finset.sum_pair hij]
  refine (Finset.sum_subset ?_ ?_).symm
  · intro k hk
    rw [Finset.mem_insert, Finset.mem_singleton] at hk
    rcases hk with rfl | rfl
    · exact Finset.mem_range.mpr hi
    · exact Finset.mem_range.mpr hj
  · intro k hk hnk
    rw [Finset.mem_insert, Finset.mem_singleton] at hnk
    push_neg at hnk
    exact h0 k (Finset.mem_range.mp hk) hnk.1 hnk.2

lemma exSt_adj0 : exSt.adjacent_same_type 0 = 1 := by decide

lemma exSt_adj1 : exSt.adjacent_same_type 1 = 1 := by decide

lemma exSt_prodTotal : exSt.productionTotal 1 = 44/5 := by
  simp only [GameState.productionTotal, show exSt.tiles.length = 2 from rfl,
    Finset.sum_range_succ, Finset.sum_range_zero, GameState.prodAt,
    show exSt.tiles.getD 0 none = some SOLAR_PANEL from rfl,
    show exSt.tiles.getD 1 none = some SOLAR_PANEL from rfl,
    exSt_adj0, exSt_adj1, Structure.production, SOLAR_PANEL]
  norm_num

lemma exSt_upkTotal : exSt.upkeepTotal = 1/2 := by
  simp only [GameState.upkeepTotal, show exSt.tiles.length = 2 from rfl,
    Finset.sum_range_succ, Finset.sum_range_zero, GameState.upkeepAt,
    show exSt.tiles.getD 0 none = some SOLAR_PANEL from rfl,
    show exSt.tiles.getD 1 none = some SOLAR_PANEL from rfl, SOLAR_PANEL]
  norm_num

lemma exSt_capTotal : exSt.capacityTotal = 0 := by
  simp only [GameState.capacityTotal, show exSt.tiles.length = 2 from rfl,
    Finset.sum_range_succ, Finset.sum_range_zero, GameState.capAt,
    show exSt.tiles.getD 0 none = some SOLAR_PANEL from rfl,
    show exSt.tiles.getD 1 none = some SOLAR_PANEL from rfl, SOLAR_PANEL]
  norm_num

lemma exSt_core : exSt.advanceCore 1 0 = (exStAfter, exRep) := by
  simp only [GameState.advanceCore, exSt_prodTotal, exSt_upkTotal, exSt_capTotal,
    show exSt.energy_storage = 0 from rfl, show exSt.unmet_demand = 0 from rfl]
  norm_num [min_def, Prod.ext_iff]
  constructor
  · rfl
  · norm_num [exRep]

lemma exSt_advance : exSt.advance_turn 1 0 = some (exStAfter, exRep) := by
  rw [GameState.advance_turn]
  norm_num [exSt_core, GameState.applyGuard,
    show exStAfter.energy_storage = 0 from rfl]

lemma est0_place : est0.place_structure 0 0 SOLAR_PANEL = some est1 := by
  rfl

/-! ### Claim theorems -/

/-- C2: for every `Structure` and all numeric inputs `sunlight` and neighbor
count `n` (including negative sunlight), `production(sunlight, n)` equals
`max(0, (base_production + adjacency_bonus * n) * sunlight)`, and the result
is never negative.  (As a Lean function it is pure by construction.) -/
theorem production_formula :
    ∀ (s : Structure) (sunlight : ℚ) (n : ℤ),
      s.production sunlight n =
        max 0 ((s.base_production + s.adjacency_bonus * (n : ℚ)) * sunlight) ∧
      0 ≤ s.production sunlight n := by
  intro s sunlight n
  exact ⟨rfl, le_max_left 0 _⟩

/-- C1: for every valid `advance_turn(sunlight, demand)` call, with
`P`/`U` the production/upkeep totals over populated cells, `M` the
recomputed capacity, `e1` the clamped storage `min(energy_storage, M)` and
`net = P - U - demand`: if `net ≥ 0` the report has
`stored = min(net, M - e1)`, storage becomes `e1 + stored`,
`overflow = net - stored`, `discharged = 0` and per-turn unmet demand 0;
if `net < 0` it has `discharged = min(e1, -net)`, storage becomes
`e1 - discharged`, per-turn `unmet_demand = -net - discharged` which is
added to the cumulative counter, and `stored = overflow = 0`; the report
always carries `production = P` and `consumption = U + demand`. -/
theorem advance_turn_flows (st : GameState) (sunlight demand : ℚ)
    (hsun : 0 ≤ sunlight) (hdem : 0 ≤ demand) (he : 0 ≤ st.energy_storage) :
    ∃ st' r, st.advance_turn sunlight demand = some (st', r) ∧
      r.production = st.productionTotal sunlight ∧
      r.consumption = st.upkeepTotal + demand ∧
      (0 ≤ st.productionTotal sunlight - st.upkeepTotal - demand →
        r.stored = min (st.productionTotal sunlight - st.upkeepTotal - demand)
            (st.capacityTotal - min st.energy_storage st.capacityTotal) ∧
        st'.energy_storage = min st.energy_storage st.capacityTotal +
          r.stored ∧
        r.overflow = st.productionTotal sunlight - st.upkeepTotal - demand -
          r.stored ∧
        r.discharged = 0 ∧ r.unmet_demand = 0 ∧
        st'.unmet_demand = st.unmet_demand) ∧
      (st.productionTotal sunlight - st.upkeepTotal - demand < 0 →
        r.discharged = min (min st.energy_storage st.capacityTotal)
            (-(st.productionTotal sunlight - st.upkeepTotal - demand)) ∧
        st'.energy_storage = min st.energy_storage st.capacityTotal -
          r.discharged ∧
        r.unmet_demand = -(st.productionTotal sunlight - st.upkeepTotal -
          demand) - r.discharged ∧
        st'.unmet_demand = st.unmet_demand + r.unmet_demand ∧
        r.stored = 0 ∧ r.overflow = 0) := by
  have hguard : (st.advanceCore sunlight demand).1.applyGuard =
      (st.advanceCore sunlight demand).1 :=
    applyGuard_of_imp (advanceCore_energy_of_max_zero st sunlight demand he)
  refine ⟨(st.advanceCore sunlight demand).1.applyGuard,
    (st.advanceCore sunlight demand).2, advance_turn_eq st hsun hdem, ?_⟩
  rw [hguard]
  by_cases hnet : 0 ≤ st.productionTotal sunlight - st.upkeepTotal - demand
  · rw [advanceCore_pos st sunlight demand hnet]
    exact ⟨rfl, rfl, fun _ => ⟨rfl, rfl, rfl, rfl, rfl, rfl⟩,
      fun h => absurd hnet (not_le.mpr h)⟩
  · rw [advanceCore_neg st sunlight demand hnet]
    exact ⟨rfl, rfl, fun h => absurd h hnet,
      fun _ => ⟨rfl, rfl, rfl, rfl, rfl, rfl⟩⟩

/-- C9: under exact arithmetic the degenerate-storage guard is
unreachable: starting from non-negative storage, after the clamp and the
charge/discharge step the condition `max_storage == 0 and
energy_storage != 0` never holds, so the guard never changes the state,
and `advance_turn` returns the pre-guard state unchanged. -/
theorem degenerate_guard_unreachable (st : GameState) (sunlight demand : ℚ)
    (he : 0 ≤ st.energy_storage) :
    ¬((st.advanceCore sunlight demand).1.max_storage = 0 ∧
      (st.advanceCore sunlight demand).1.energy_storage ≠ 0) ∧
    (st.advanceCore sunlight demand).1.applyGuard =
      (st.advanceCore sunlight demand).1 ∧
    (0 ≤ sunlight → 0 ≤ demand →
      st.advance_turn sunlight demand =
        some ((st.advanceCore sunlight demand).1,
              (st.advanceCore sunlight demand).2)) := by
  have himp := advanceCore_energy_of_max_zero st sunlight demand he
  refine ⟨fun hc => hc.2 (himp hc.1), applyGuard_of_imp himp, fun hs hd => ?_⟩
  rw [advance_turn_eq st hs hd, applyGuard_of_imp himp]

/-- C10: every successful `advance_turn` call leaves the grid contents,
width and height unchanged — turn resolution only mutates
`energy_storage`, `max_storage` and `unmet_demand` (and a failing call
returns `none`, leaving the caller's state untouched). -/
theorem advance_turn_frame (st : GameState) (sunlight demand : ℚ)
    (p : GameState × EnergyReport)
    (h : st.advance_turn sunlight demand = some p) :
    p.1.width = st.width ∧ p.1.height = st.height ∧ p.1.tiles = st.tiles := by
  obtain ⟨hp, -, -⟩ := advance_turn_some h
  rw [hp]
  refine ⟨?_, ?_, ?_⟩
  · rw [applyGuard_width, advanceCore_width]
  · rw [applyGuard_height, advanceCore_height]
  · rw [applyGuard_tiles, advanceCore_tiles]

/-- C4: the cumulative `unmet_demand` counter is monotone over the
engine's lifetime: every successful `advance_turn` adds this turn's
non-negative deficit to it, and `place_structure` / `remove_structure`
leave it unchanged (queries and failing calls do not produce a new
state at all). -/
theorem unmet_demand_monotone :
    (∀ (st : GameState) (sunlight demand : ℚ) (p : GameState × EnergyReport),
      st.advance_turn sunlight demand = some p →
        p.1.unmet_demand = st.unmet_demand + p.2.unmet_demand ∧
        0 ≤ p.2.unmet_demand ∧ st.unmet_demand ≤ p.1.unmet_demand) ∧
    (∀ (st : GameState) (x y : ℤ) (s : Structure) (st' : GameState),
      st.place_structure x y s = some st' →
        st'.unmet_demand = st.unmet_demand) ∧
    (∀ (st : GameState) (x y : ℤ) (st' : GameState),
      st.remove_structure x y = some st' →
        st'.unmet_demand = st.unmet_demand) := by
  refine ⟨?_, ?_, ?_⟩
  · intro st sunlight demand p h
    obtain ⟨hp, -, -⟩ := advance_turn_some h
    rw [hp]
    simp only [applyGuard_unmet]
    by_cases hnet : 0 ≤ st.productionTotal sunlight - st.upkeepTotal - demand
    · have h1 : (st.advanceCore sunlight demand).1.unmet_demand =
          st.unmet_demand := by
        rw [advanceCore_pos st sunlight demand hnet]
      have h2 : (st.advanceCore sunlight demand).2.unmet_demand = 0 := by
        rw [advanceCore_pos st sunlight demand hnet]
      rw [h1, h2]
      exact ⟨by ring, le_refl 0, le_refl _⟩
    · have h1 : (st.advanceCore sunlight demand).1.unmet_demand =
          st.unmet_demand +
            (-(st.productionTotal sunlight - st.upkeepTotal - demand) -
              min (min st.energy_storage st.capacityTotal)
                (-(st.productionTotal sunlight - st.upkeepTotal - demand))) := by
        rw [advanceCore_neg st sunlight demand hnet]
      have h2 : (st.advanceCore sunlight demand).2.unmet_demand =
          -(st.productionTotal sunlight - st.upkeepTotal - demand) -
            min (min st.energy_storage st.capacityTotal)
              (-(st.productionTotal sunlight - st.upkeepTotal - demand)) := by
        rw [advanceCore_neg st sunlight demand hnet]
      have hd : min (min st.energy_storage st.capacityTotal)
          (-(st.productionTotal sunlight - st.upkeepTotal - demand)) ≤
          -(st.productionTotal sunlight - st.upkeepTotal - demand) :=
        min_le_right _ _
      rw [h1, h2]
      exact ⟨rfl, by linarith, by linarith⟩
  · intro st x y s st' h
    obtain ⟨idx, -, -, hst⟩ := place_structure_some h
    rw [hst]
  · intro st x y st' h
    obtain ⟨idx, s, -, -, hst⟩ := remove_structure_some h
    rw [hst]

/-- C3: under exact arithmetic, with every placed structure of
non-negative storage capacity, the invariant
`0 ≤ energy_storage ≤ max_storage` holds after construction and is
preserved by `place_structure` (which never touches `energy_storage`),
`remove_structure` and `advance_turn`. -/
theorem energy_storage_invariant :
    (∀ (w h : ℤ) (st : GameState),
      GameState.init w h = some st → st.storageInv) ∧
    (∀ (st : GameState) (x y : ℤ) (s : Structure) (st' : GameState),
      0 ≤ s.storage_capacity → st.storageInv →
      st.place_structure x y s = some st' →
        st'.storageInv ∧ st'.energy_storage = st.energy_storage) ∧
    (∀ (st : GameState) (x y : ℤ) (st' : GameState),
      st.storageInv → st.remove_structure x y = some st' → st'.storageInv) ∧
    (∀ (st : GameState) (sunlight demand : ℚ) (p : GameState × EnergyReport),
      st.capsNonneg → st.storageInv →
      st.advance_turn sunlight demand = some p → p.1.storageInv) := by
  refine ⟨?_, ?_, ?_, ?_⟩
  · intro w h st hinit
    rw [init_some hinit]
    exact ⟨le_refl 0, le_refl 0⟩
  · intro st x y s st' hcap hinv h
    obtain ⟨idx, -, -, hst⟩ := place_structure_some h
    rw [hst]
    refine ⟨⟨hinv.1, ?_⟩, rfl⟩
    show st.energy_storage ≤
      if s.storage_capacity = 0 then st.max_storage
      else st.max_storage + s.storage_capacity
    split_ifs with h0
    · exact hinv.2
    · linarith [hinv.2]
  · intro st x y st' hinv h
    obtain ⟨idx, s, -, -, hst⟩ := remove_structure_some h
    rw [hst]
    constructor
    · show 0 ≤ if s.storage_capacity = 0 then st.energy_storage
        else min st.energy_storage (max 0 (st.max_storage - s.storage_capacity))
      split_ifs with h0
      · exact hinv.1
      · exact le_min hinv.1 (le_max_left 0 _)
    · show (if s.storage_capacity = 0 then st.energy_storage
          else min st.energy_storage
            (max 0 (st.max_storage - s.storage_capacity))) ≤
        (if s.storage_capacity = 0 then st.max_storage
          else max 0 (st.max_storage - s.storage_capacity))
      split_ifs with h0
      · exact hinv.2
      · exact min_le_right _ _
  · intro st sunlight demand p hc hinv h
    obtain ⟨hp, -, -⟩ := advance_turn_some h
    rw [hp]
    exact applyGuard_storageInv (advanceCore_storageInv st sunlight demand hc hinv)


/-- C5: placing a structure on an empty in-range cell and immediately
removing it restores `max_storage` exactly to its pre-placement value and
leaves the cell empty again, for any state with the usual non-negative
`max_storage` and a well-formed tile list. -/
theorem place_remove_roundtrip (st : GameState) (x y : ℤ) (s : Structure)
    (idx : ℕ) (hmax : 0 ≤ st.max_storage)
    (hlen : st.tiles.length = st.width * st.height)
    (hidx : st.index x y = some idx)
    (hempty : st.tiles.getD idx none = none) :
    ∃ st1 st2, st.place_structure x y s = some st1 ∧
      st1.remove_structure x y = some st2 ∧
      st2.max_storage = st.max_storage ∧
      st2.tiles.getD idx none = none := by
  have hlt : idx < st.tiles.length := index_lt_of_wf hidx hlen
  have hplace : st.place_structure x y s = some { st with
      tiles := st.tiles.set idx (some s)
      max_storage :=
        if s.storage_capacity = 0 then st.max_storage
        else st.max_storage + s.storage_capacity } := by
    rw [GameState.place_structure]
    simp only [hidx, hempty]
  have hidx1 : ({ st with
      tiles := st.tiles.set idx (some s)
      max_storage :=
        if s.storage_capacity = 0 then st.max_storage
        else st.max_storage + s.storage_capacity } : GameState).index x y =
      some idx := by
    rw [index_same_shape rfl rfl]
    exact hidx
  have hget1 : (st.tiles.set idx (some s)).getD idx none = some s :=
    getD_set_self _ hlt
  have hremove : ({ st with
      tiles := st.tiles.set idx (some s)
      max_storage :=
        if s.storage_capacity = 0 then st.max_storage
        else st.max_storage + s.storage_capacity } : GameState).remove_structure
      x y = some { st with
      tiles := (st.tiles.set idx (some s)).set idx none
      max_storage :=
        if s.storage_capacity = 0 then
          (if s.storage_capacity = 0 then st.max_storage
            else st.max_storage + s.storage_capacity)
        else max 0 ((if s.storage_capacity = 0 then st.max_storage
            else st.max_storage + s.storage_capacity) - s.storage_capacity)
      energy_storage :=
        if s.storage_capacity = 0 then st.energy_storage
        else min st.energy_storage
          (max 0 ((if s.storage_capacity = 0 then st.max_storage
            else st.max_storage + s.storage_capacity) - s.storage_capacity)) } := by
    rw [GameState.remove_structure]
    simp only [hidx1, hget1]
  refine ⟨_, _, hplace, hremove, ?_, ?_⟩
  · show (if s.storage_capacity = 0 then
        (if s.storage_capacity = 0 then st.max_storage
          else st.max_storage + s.storage_capacity)
      else max 0 ((if s.storage_capacity = 0 then st.max_storage
          else st.max_storage + s.storage_capacity) - s.storage_capacity)) =
      st.max_storage
    by_cases h0 : s.storage_capacity = 0
    · rw [if_pos h0, if_pos h0]
    · rw [if_neg h0, if_neg h0, add_sub_cancel_right]
      exact max_eq_right hmax
  · show ((st.tiles.set idx (some s)).set idx none).getD idx none = none
    rw [List.set_set]
    exact getD_set_self _ hlt

/-- C6: each operation fails exactly under its specified error condition:
`place_structure` iff the coordinate is out of range or the cell occupied,
`remove_structure` iff out of range or the cell empty, `advance_turn` iff
`sunlight < 0` or `demand < 0`, and construction iff a dimension is
non-positive.  (A failing call returns `none`, so the caller's state is
untouched: validation precedes every mutation.) -/
theorem failure_conditions :
    (∀ width height : ℤ,
      GameState.init width height = none ↔ width ≤ 0 ∨ height ≤ 0) ∧
    (∀ (st : GameState) (x y : ℤ) (s : Structure),
      st.place_structure x y s = none ↔
        ¬ st.inBounds x y ∨ (st.tiles.getD (st.flatIdx x y) none).isSome) ∧
    (∀ (st : GameState) (x y : ℤ),
      st.remove_structure x y = none ↔
        ¬ st.inBounds x y ∨ st.tiles.getD (st.flatIdx x y) none = none) ∧
    (∀ (st : GameState) (sunlight demand : ℚ),
      st.advance_turn sunlight demand = none ↔ sunlight < 0 ∨ demand < 0) := by
  refine ⟨?_, ?_, ?_, ?_⟩
  · intro width height
    rw [GameState.init]
    split_ifs with h <;> simp [h]
  · intro st x y s
    rw [GameState.place_structure, GameState.index]
    by_cases hb : st.inBounds x y
    · rw [if_pos hb]
      cases hocc : st.tiles.getD (st.flatIdx x y) none <;>
        simp only [hocc] <;> simp [hb]
    · rw [if_neg hb]
      simp [hb]
  · intro st x y
    rw [GameState.remove_structure, GameState.index]
    by_cases hb : st.inBounds x y
    · rw [if_pos hb]
      cases hocc : st.tiles.getD (st.flatIdx x y) none <;>
        simp only [hocc] <;> simp [hb]
    · rw [if_neg hb]
      simp [hb]
  · intro st sunlight demand
    rw [GameState.advance_turn]
    split_ifs with h1 h2 <;> simp [*]

/-- C8: under exact arithmetic, with all storage capacities non-negative,
`max_storage` always equals the sum of `storage_capacity` over the placed
structures: it does after construction, it is preserved by the
incremental updates of `place_structure` and `remove_structure`
(whose floor at 0 therefore never binds), and `advance_turn` recomputes
exactly that sum from scratch. -/
theorem max_storage_eq_capacity_sum :
    (∀ (w h : ℤ) (st : GameState),
      GameState.init w h = some st → st.max_storage = st.capacitySum) ∧
    (∀ (st : GameState) (x y : ℤ) (s : Structure) (st' : GameState),
      st.tiles.length = st.width * st.height →
      st.max_storage = st.capacitySum →
      st.place_structure x y s = some st' →
        st'.max_storage = st'.capacitySum) ∧
    (∀ (st : GameState) (x y : ℤ) (st' : GameState),
      st.capsNonneg → st.max_storage = st.capacitySum →
      st.remove_structure x y = some st' →
        st'.max_storage = st'.capacitySum) ∧
    (∀ (st : GameState) (sunlight demand : ℚ) (p : GameState × EnergyReport),
      st.advance_turn sunlight demand = some p →
        p.1.max_storage = p.1.capacitySum) := by
  refine ⟨?_, ?_, ?_, ?_⟩
  · intro w h st hinit
    rw [init_some hinit, GameState.capacitySum]
    simp [List.map_replicate, List.sum_replicate, capOf]
  · intro st x y s st' hlen hsum h
    obtain ⟨idx, hidxeq, hocc, hst⟩ := place_structure_some h
    have hlt : idx < st.tiles.length := index_lt_of_wf hidxeq hlen
    rw [hst]
    show (if s.storage_capacity = 0 then st.max_storage
        else st.max_storage + s.storage_capacity) =
      GameState.capacitySum _
    rw [GameState.capacitySum]
    show _ = ((st.tiles.set idx (some s)).map capOf).sum
    rw [sum_map_set _ _ _ _ hlt, hocc]
    show _ = (st.tiles.map capOf).sum - 0 + s.storage_capacity
    rw [← GameState.capacitySum, ← hsum]
    split_ifs with h0
    · rw [h0]
      ring
    · ring
  · intro st x y st' hc hsum h
    obtain ⟨idx, s, hidxeq, hocc, hst⟩ := remove_structure_some h
    have hlt : idx < st.tiles.length := getD_lt_length hocc
    have hnn := capacitySum_set_nonneg hc idx
    have hset : ((st.tiles.set idx none).map capOf).sum =
        st.capacitySum - s.storage_capacity := by
      rw [sum_map_set _ _ _ _ hlt, hocc, GameState.capacitySum]
      show (st.tiles.map capOf).sum - s.storage_capacity + 0 = _
      ring
    rw [hst]
    show (if s.storage_capacity = 0 then st.max_storage
        else max 0 (st.max_storage - s.storage_capacity)) =
      GameState.capacitySum _
    rw [GameState.capacitySum]
    show _ = ((st.tiles.set idx none).map capOf).sum
    rw [hset, ← hsum]
    split_ifs with h0
    · rw [h0]
      ring
    · refine max_eq_right ?_
      rw [hsum, ← hset]
      exact hnn
  · intro st sunlight demand p h
    obtain ⟨hp, -, -⟩ := advance_turn_some h
    rw [hp]
    have htiles : ((st.advanceCore sunlight demand).1.applyGuard).tiles =
        st.tiles := by
      rw [applyGuard_tiles, advanceCore_tiles]
    have hcs : ((st.advanceCore sunlight demand).1.applyGuard).capacitySum =
        st.capacitySum := by
      rw [GameState.capacitySum, GameState.capacitySum, htiles]
    rw [applyGuard_max, advanceCore_max, hcs, capacityTotal_eq_capacitySum]

/-- C7: an engine holding exactly two same-named producers with
`base_production = 4`, `adjacency_bonus = 0.4`, `upkeep = 0.25` and no
storage capacity, on orthogonally adjacent cells with every other cell
empty, resolves `advance_turn(1, 0)` to a report with
`production = 8.8` (each cell counts one same-type neighbor and makes
4.4), `consumption = 0.5`, `overflow = 8.3`, `stored = 0`,
`discharged = 0` and per-turn `unmet_demand = 0`. -/
theorem two_adjacent_producers_report (st : GameState) (s : Structure)
    (i j : ℕ) (hw : 0 < st.width)
    (hi : st.tiles.getD i none = some s)
    (hj : st.tiles.getD j none = some s)
    (hother : ∀ k, k ≠ i → k ≠ j → st.tiles.getD k none = none)
    (hadj : j ∈ st.neighbors i) (hadj2 : i ∈ st.neighbors j)
    (hbase : s.base_production = 4) (hbonus : s.adjacency_bonus = 2/5)
    (hupk : s.upkeep = 1/4) (hcap : s.storage_capacity = 0)
    (he : 0 ≤ st.energy_storage) :
    ∃ st' r, st.advance_turn 1 0 = some (st', r) ∧
      r.production = 44/5 ∧ r.consumption = 1/2 ∧ r.overflow = 83/10 ∧
      r.stored = 0 ∧ r.discharged = 0 ∧ r.unmet_demand = 0 := by
  have hij : i ≠ j := by
    intro hij
    exact self_not_mem_neighbors st hw i (hij ▸ hadj)
  have hilt : i < st.tiles.length := getD_lt_length hi
  have hjlt : j < st.tiles.length := getD_lt_length hj
  have hadi : st.adjacent_same_type i = 1 :=
    adjacent_same_type_pair st hw hi hj hother hadj
  have hadjj : st.adjacent_same_type j = 1 :=
    adjacent_same_type_pair st hw hj hi
      (fun k hk1 hk2 => hother k hk2 hk1) hadj2
  have hprod_i : st.prodAt 1 i = 22/5 := by
    rw [GameState.prodAt]
    simp only [hi, hadi]
    rw [Structure.production, hbase, hbonus]
    rw [max_eq_right] <;> norm_num
  have hprod_j : st.prodAt 1 j = 22/5 := by
    rw [GameState.prodAt]
    simp only [hj, hadjj]
    rw [Structure.production, hbase, hbonus]
    rw [max_eq_right] <;> norm_num
  have hP : st.productionTotal 1 = 44/5 := by
    rw [GameState.productionTotal,
      sum_range_two_support hij hilt hjlt
        (fun k hk hki hkj => by rw [GameState.prodAt]; simp only [hother k hki hkj]),
      hprod_i, hprod_j]
    norm_num
  have hU : st.upkeepTotal = 1/2 := by
    rw [GameState.upkeepTotal,
      sum_range_two_support hij hilt hjlt
        (fun k hk hki hkj => by rw [GameState.upkeepAt]; simp only [hother k hki hkj]),
      GameState.upkeepAt, GameState.upkeepAt]
    simp only [hi, hj, hupk]
    norm_num
  have hM : st.capacityTotal = 0 := by
    rw [GameState.capacityTotal]
    refine Finset.sum_eq_zero fun k _ => ?_
    rw [capAt_eq_capOf]
    by_cases hki : k = i
    · subst hki
      rw [hi]
      exact hcap
    by_cases hkj : k = j
    · subst hkj
      rw [hj]
      exact hcap
    · rw [hother k hki hkj]
      rfl
  have hnet : 0 ≤ st.productionTotal 1 - st.upkeepTotal - 0 := by
    rw [hP, hU]
    norm_num
  have hcore := advanceCore_pos st 1 0 hnet
  have hr1 : (st.advanceCore 1 0).2.production = 44/5 := by
    rw [hcore]
    exact hP
  have hr2 : (st.advanceCore 1 0).2.consumption = 1/2 := by
    rw [hcore]
    show st.upkeepTotal + 0 = 1/2
    rw [hU]
    norm_num
  have hstored : min (st.productionTotal 1 - st.upkeepTotal - 0)
      (st.capacityTotal - min st.energy_storage st.capacityTotal) = 0 := by
    rw [hP, hU, hM, min_eq_right he]
    rw [min_eq_right] <;> norm_num
  have hr3 : (st.advanceCore 1 0).2.stored = 0 := by
    rw [hcore]
    exact hstored
  have hr4 : (st.advanceCore 1 0).2.overflow = 83/10 := by
    rw [hcore]
    show st.productionTotal 1 - st.upkeepTotal - 0 - _ = 83/10
    rw [hstored, hP, hU]
    norm_num
  have hr5 : (st.advanceCore 1 0).2.discharged = 0 := by
    rw [hcore]
  have hr6 : (st.advanceCore 1 0).2.unmet_demand = 0 := by
    rw [hcore]
  exact ⟨(st.advanceCore 1 0).1.applyGuard, (st.advanceCore 1 0).2,
    advance_turn_eq st (by norm_num) (le_refl 0),
    hr1, hr2, hr4, hr3, hr5, hr6⟩

/-! ### Witnesses -/

/-- Witness for C1 at the concrete two-panel board. -/
theorem advance_turn_flows_witness :
    (0:ℚ) ≤ 1 ∧ (0:ℚ) ≤ 0 ∧ 0 ≤ exSt.energy_storage ∧
    (∃ st' r, exSt.advance_turn 1 0 = some (st', r) ∧
      r.production = exSt.productionTotal 1 ∧
      r.consumption = exSt.upkeepTotal + 0 ∧
      (0 ≤ exSt.productionTotal 1 - exSt.upkeepTotal - 0 →
        r.stored = min (exSt.productionTotal 1 - exSt.upkeepTotal - 0)
            (exSt.capacityTotal - min exSt.energy_storage exSt.capacityTotal) ∧
        st'.energy_storage = min exSt.energy_storage exSt.capacityTotal +
          r.stored ∧
        r.overflow = exSt.productionTotal 1 - exSt.upkeepTotal - 0 -
          r.stored ∧
        r.discharged = 0 ∧ r.unmet_demand = 0 ∧
        st'.unmet_demand = exSt.unmet_demand) ∧
      (exSt.productionTotal 1 - exSt.upkeepTotal - 0 < 0 →
        r.discharged = min (min exSt.energy_storage exSt.capacityTotal)
            (-(exSt.productionTotal 1 - exSt.upkeepTotal - 0)) ∧
        st'.energy_storage = min exSt.energy_storage exSt.capacityTotal -
          r.discharged ∧
        r.unmet_demand = -(exSt.productionTotal 1 - exSt.upkeepTotal - 0) -
          r.discharged ∧
        st'.unmet_demand = exSt.unmet_demand + r.unmet_demand ∧
        r.stored = 0 ∧ r.overflow = 0)) :=
  ⟨by norm_num, le_refl 0, le_refl 0,
    advance_turn_flows exSt 1 0 (by norm_num) (le_refl 0) (le_refl 0)⟩

/-- Witness for C3: placing a solar panel on the empty 1-by-1 board. -/
theorem energy_storage_invariant_witness :
    0 ≤ SOLAR_PANEL.storage_capacity ∧ est0.storageInv ∧
    est1.storageInv ∧ est1.energy_storage = est0.energy_storage :=
  have h := energy_storage_invariant.2.1 est0 0 0 SOLAR_PANEL est1
    (le_refl 0) ⟨le_refl 0, le_refl 0⟩ est0_place
  ⟨le_refl 0, ⟨le_refl 0, le_refl 0⟩, h.1, h.2⟩

/-- Witness for C4 at the concrete two-panel board. -/
theorem unmet_demand_monotone_witness :
    exStAfter.unmet_demand = exSt.unmet_demand + exRep.unmet_demand ∧
    0 ≤ exRep.unmet_demand ∧ exSt.unmet_demand ≤ exStAfter.unmet_demand :=
  unmet_demand_monotone.1 exSt 1 0 (exStAfter, exRep) exSt_advance

/-- Witness for C5: place then remove a solar panel on the 1-by-1 board. -/
theorem place_remove_roundtrip_witness :
    0 ≤ est0.max_storage ∧ est0.tiles.length = est0.width * est0.height ∧
    est0.index 0 0 = some 0 ∧ est0.tiles.getD 0 none = none ∧
    (∃ st1 st2, est0.place_structure 0 0 SOLAR_PANEL = some st1 ∧
      st1.remove_structure 0 0 = some st2 ∧
      st2.max_storage = est0.max_storage ∧
      st2.tiles.getD 0 none = none) :=
  ⟨le_refl 0, rfl, rfl, rfl,
    place_remove_roundtrip est0 0 0 SOLAR_PANEL 0 (le_refl 0) rfl rfl rfl⟩

/-- Witness for C7: the two-panel board realizes every hypothesis of the
scenario theorem. -/
theorem two_adjacent_producers_report_witness :
    0 < exSt.width ∧
    exSt.tiles.getD 0 none = some SOLAR_PANEL ∧
    exSt.tiles.getD 1 none = some SOLAR_PANEL ∧
    1 ∈ exSt.neighbors 0 ∧ 0 ∈ exSt.neighbors 1 ∧
    SOLAR_PANEL.base_production = 4 ∧ SOLAR_PANEL.adjacency_bonus = 2/5 ∧
    SOLAR_PANEL.upkeep = 1/4 ∧ SOLAR_PANEL.storage_capacity = 0 ∧
    0 ≤ exSt.energy_storage ∧
    (∃ st' r, exSt.advance_turn 1 0 = some (st', r) ∧
      r.production = 44/5 ∧ r.consumption = 1/2 ∧ r.overflow = 83/10 ∧
      r.stored = 0 ∧ r.discharged = 0 ∧ r.unmet_demand = 0) := by
  have hother : ∀ k, k ≠ 0 → k ≠ 1 → exSt.tiles.getD k none = none := by
    intro k hk0 hk1
    match k with
    | 0 => exact absurd rfl hk0
    | 1 => exact absurd rfl hk1
    | (n+2) =>
        refine List.getD_eq_default _ _ ?_
        show 2 ≤ n + 2
        omega
  exact ⟨by decide, rfl, rfl, by decide, by decide, rfl, rfl, rfl, rfl,
    le_refl 0,
    two_adjacent_producers_report exSt SOLAR_PANEL 0 1 (by decide) rfl rfl
      hother (by decide) (by decide) rfl rfl rfl rfl (le_refl 0)⟩

/-- Witness for C8: placing a solar panel on the empty 1-by-1 board. -/
theorem max_storage_eq_capacity_sum_witness :
    est0.tiles.length = est0.width * est0.height ∧
    est0.max_storage = est0.capacitySum ∧
    est1.max_storage = est1.capacitySum :=
  have h0 : est0.max_storage = est0.capacitySum := by
    rw [GameState.capacitySum]
    norm_num [capOf, est0]
  ⟨rfl, h0,
    max_storage_eq_capacity_sum.2.1 est0 0 0 SOLAR_PANEL est1 rfl h0 est0_place⟩

/-- Witness for C9 at the concrete two-panel board. -/
theorem degenerate_guard_unreachable_witness :
    0 ≤ exSt.energy_storage ∧
    (¬((exSt.advanceCore 1 0).1.max_storage = 0 ∧
        (exSt.advanceCore 1 0).1.energy_storage ≠ 0) ∧
      (exSt.advanceCore 1 0).1.applyGuard = (exSt.advanceCore 1 0).1 ∧
      ((0:ℚ) ≤ 1 → (0:ℚ) ≤ 0 →
        exSt.advance_turn 1 0 =
          some ((exSt.advanceCore 1 0).1, (exSt.advanceCore 1 0).2))) :=
  ⟨le_refl 0, degenerate_guard_unreachable exSt 1 0 (le_refl 0)⟩

/-- Witness for C10 at the concrete two-panel board. -/
theorem advance_turn_frame_witness :
    exStAfter.width = exSt.width ∧ exStAfter.height = exSt.height ∧
    exStAfter.tiles = exSt.tiles :=
  advance_turn_frame exSt 1 0 (exStAfter, exRep) exSt_advance

end Solar
